import Mathlib

/-!
Verification development for the insurance-claim agent pipeline in `src/app.py`.

The embedding is a shallow one:

* `JValue` models the Python values produced by `json.loads` (the decoded
  JSON document).  Float tokens, `NaN` and `Infinity` are kept as their raw
  source text in the `numF` constructor (Python converts them to `float`;
  none of the verified properties depend on float arithmetic, only on the
  success or failure of decoding).  `\uXXXX` escapes are mapped one code
  unit at a time (surrogate pairs are not combined); this does not affect
  any verified property.
* `json_loads` models CPython `json.loads` with its default strict decoder:
  leading/trailing JSON whitespace allowed, trailing data rejected, raw
  control characters below U+0020 rejected inside strings, object keys must
  be double-quoted strings, `NaN`/`Infinity`/`-Infinity` accepted.  It is
  written with a fuel argument (structural recursion) so that the kernel
  can evaluate it; the fuel `5 * length + 5` dominates the length of every
  call chain, which advances through the input.
* `py_get` models Python `value.get(key, default)`: on a dict it returns the
  last binding of the key (later duplicate keys win in a Python dict) or
  the default; on any non-dict value it raises `AttributeError`, modelled
  as `Except.error` carrying `str(e)`.
* `py_str`/`py_repr` model the `str()` conversion used by the f-strings
  that build downstream queries (`str(None) = "None"`, etc.).  The
  rendering of Python string escapes inside `repr` of containers is
  simplified (always single quotes, no escaping); no verified property
  depends on it.
* `Env` is the oracle for everything external: whether acquiring the
  credential / client raises, whether `client.agents.get_agent` raises for
  a given agent id, and the behaviour of `agent.get_response` for a given
  agent id and query (`AgentBehavior`): return a plain response, return a
  tuple (unwrapped to its first element by `invoke_agent`), or raise.
* `process_claim_run_agents` is the pipeline of `src/app.py` lines 82-178,
  returning the `results` mapping as an insertion-ordered association list
  together with a ghost trace of the agent invocations and JSON parse
  attempts that occurred, in order.
-/

/-- Python value decoded from JSON (result of `json.loads`). -/
inductive JValue where
  | null
  | bool (b : Bool)
  | num (n : Int)
  | numF (raw : String)
  | str (s : String)
  | arr (xs : List JValue)
  | obj (fields : List (String × JValue))

/-- JSON whitespace characters skipped by the decoder (space, tab, LF, CR). -/
def skip_ws : List Char → List Char
  | [] => []
  | c :: cs => if c = ' ' || c = '\t' || c = '\n' || c = '\r' then skip_ws cs else c :: cs

/-- Value of one hexadecimal digit, as used by `\uXXXX` escapes. -/
def hex_digit_val (c : Char) : Option Nat :=
  if '0' ≤ c ∧ c ≤ '9' then some (c.toNat - 48)
  else if 'a' ≤ c ∧ c ≤ 'f' then some (c.toNat - 87)
  else if 'A' ≤ c ∧ c ≤ 'F' then some (c.toNat - 55)
  else none

/-- Body of a JSON string after the opening quote: returns the decoded
characters and the remaining input after the closing quote.  Strict mode:
raw control characters below U+0020 are rejected. -/
def parse_string_chars : List Char → List Char → Option (List Char × List Char)
  | _, [] => none
  | acc, '\x5c' :: rest =>
    match rest with
    | [] => none
    | e :: rest2 =>
      if e = '\x22' then parse_string_chars ('\x22' :: acc) rest2
      else if e = '\x5c' then parse_string_chars ('\x5c' :: acc) rest2
      else if e = '/' then parse_string_chars ('/' :: acc) rest2
      else if e = 'b' then parse_string_chars ('\x08' :: acc) rest2
      else if e = 'f' then parse_string_chars ('\x0c' :: acc) rest2
      else if e = 'n' then parse_string_chars ('\n' :: acc) rest2
      else if e = 'r' then parse_string_chars ('\r' :: acc) rest2
      else if e = 't' then parse_string_chars ('\t' :: acc) rest2
      else if e = 'u' then
        match rest2 with
        | h1 :: h2 :: h3 :: h4 :: rest3 =>
          match hex_digit_val h1, hex_digit_val h2, hex_digit_val h3, hex_digit_val h4 with
          | some a, some b, some c, some d =>
            parse_string_chars (Char.ofNat (((a * 16 + b) * 16 + c) * 16 + d) :: acc) rest3
          | _, _, _, _ => none
        | _ => none
      else none
  | acc, c :: cs =>
    if c = '\x22' then some (acc.reverse, cs)
    else if c.toNat < 32 then none
    else parse_string_chars (c :: acc) cs

/-- Longest run of decimal digits at the head of the input. -/
def take_digits : List Char → List Char × List Char
  | [] => ([], [])
  | c :: cs =>
    if c.isDigit then
      let r := take_digits cs
      (c :: r.1, r.2)
    else ([], c :: cs)

/-- Numeric value of a run of decimal digits. -/
def digits_val (ds : List Char) : Nat :=
  ds.foldl (fun n c => n * 10 + (c.toNat - 48)) 0

/-- Integer part of a JSON number: a single `0`, or a nonzero digit followed
by digits (the `(?:0|[1-9]\d*)` part of the CPython NUMBER_RE). -/
def parse_int_part : List Char → Option (List Char × List Char)
  | [] => none
  | '0' :: rest => some (['0'], rest)
  | c :: rest =>
    if '1' ≤ c ∧ c ≤ '9' then
      let r := take_digits rest
      some (c :: r.1, r.2)
    else none

/-- Optional fraction part `(\.\d+)?` of a JSON number; consumes nothing when
the pattern does not match (mirroring the regex). -/
def parse_frac_part (cs : List Char) : List Char × List Char :=
  match cs with
  | '.' :: rest =>
    match take_digits rest with
    | ([], _) => ([], cs)
    | (ds, r) => ('.' :: ds, r)
  | _ => ([], cs)

/-- Optional exponent part `([eE][-+]?\d+)?` of a JSON number; consumes
nothing when the pattern does not match. -/
def parse_exp_part (cs : List Char) : List Char × List Char :=
  match cs with
  | e :: rest =>
    if e = 'e' || e = 'E' then
      match rest with
      | s :: rest2 =>
        if s = '+' || s = '-' then
          match take_digits rest2 with
          | ([], _) => ([], cs)
          | (ds, r) => (e :: s :: ds, r)
        else
          match take_digits rest with
          | ([], _) => ([], cs)
          | (ds, r) => (e :: ds, r)
      | [] => ([], cs)
    else ([], cs)
  | [] => ([], cs)

/-- A JSON number at the head of the input: an integer literal becomes an
`int` (`JValue.num`), a literal with a fraction or exponent becomes a float,
kept as its raw token text (`JValue.numF`). -/
def parse_number (cs : List Char) : Option (JValue × List Char) :=
  let sr : Bool × List Char := match cs with
    | '-' :: rest => (true, rest)
    | _ => (false, cs)
  match parse_int_part sr.2 with
  | none => none
  | some (ints, r1) =>
    let fr := parse_frac_part r1
    let ex := parse_exp_part fr.2
    if fr.1 = [] ∧ ex.1 = [] then
      let n : Int := Int.ofNat (digits_val ints)
      some (JValue.num (if sr.1 then -n else n), r1)
    else
      some (JValue.numF (String.mk ((if sr.1 then ['-'] else []) ++ ints ++ fr.1 ++ ex.1)), ex.2)

mutual

/-- One JSON value at the head of the input (no leading whitespace),
mirroring the CPython scanner: string, object, array, the keyword
constants, a number, or `NaN`/`Infinity`/`-Infinity`. -/
def parse_value : Nat → List Char → Option (JValue × List Char)
  | 0, _ => none
  | f + 1, cs =>
    match cs with
    | [] => none
    | '\x22' :: rest =>
      match parse_string_chars [] rest with
      | some (chars, r) => some (JValue.str (String.mk chars), r)
      | none => none
    | '\x7b' :: rest =>
      match skip_ws rest with
      | '\x7d' :: r2 => some (JValue.obj [], r2)
      | r1 => parse_members f [] r1
    | '[' :: rest =>
      match skip_ws rest with
      | ']' :: r2 => some (JValue.arr [], r2)
      | r1 => parse_elements f [] r1
    | 't' :: 'r' :: 'u' :: 'e' :: rest => some (JValue.bool true, rest)
    | 'f' :: 'a' :: 'l' :: 's' :: 'e' :: rest => some (JValue.bool false, rest)
    | 'n' :: 'u' :: 'l' :: 'l' :: rest => some (JValue.null, rest)
    | 'N' :: 'a' :: 'N' :: rest => some (JValue.numF "nan", rest)
    | 'I' :: 'n' :: 'f' :: 'i' :: 'n' :: 'i' :: 't' :: 'y' :: rest =>
      some (JValue.numF "inf", rest)
    | cs2 =>
      match parse_number cs2 with
      | some res => some res
      | none =>
        match cs2 with
        | '-' :: 'I' :: 'n' :: 'f' :: 'i' :: 'n' :: 'i' :: 't' :: 'y' :: rest =>
          some (JValue.numF "-inf", rest)
        | _ => none

/-- Members of a JSON object, positioned at a (double-quoted) key; keys
accumulate in insertion order, so a later duplicate key ends up after the
earlier one and `py_lookup` (last match) gives it precedence, like a Python
dict built by repeated assignment. -/
def parse_members : Nat → List (String × JValue) → List Char → Option (JValue × List Char)
  | 0, _, _ => none
  | f + 1, acc, cs =>
    match cs with
    | '\x22' :: rest =>
      match parse_string_chars [] rest with
      | none => none
      | some (kchars, r1) =>
        match skip_ws r1 with
        | ':' :: r2 =>
          match parse_value f (skip_ws r2) with
          | none => none
          | some (v, r3) =>
            match skip_ws r3 with
            | ',' :: r4 => parse_members f (acc ++ [(String.mk kchars, v)]) (skip_ws r4)
            | '\x7d' :: r4 => some (JValue.obj (acc ++ [(String.mk kchars, v)]), r4)
            | _ => none
        | _ => none
    | _ => none

/-- Elements of a JSON array, positioned at the start of a value. -/
def parse_elements : Nat → List JValue → List Char → Option (JValue × List Char)
  | 0, _, _ => none
  | f + 1, acc, cs =>
    match parse_value f cs with
    | none => none
    | some (v, r1) =>
      match skip_ws r1 with
      | ',' :: r2 => parse_elements f (acc ++ [v]) (skip_ws r2)
      | ']' :: r2 => some (JValue.arr (acc ++ [v]), r2)
      | _ => none

end

/-- Model of Python `json.loads` (strict decoder): skip leading whitespace,
decode one document, reject trailing non-whitespace data.  `none` models a
raised `json.JSONDecodeError`. -/
def json_loads (s : String) : Option JValue :=
  match parse_value (5 * s.length + 5) (skip_ws s.data) with
  | some (v, rest) => if skip_ws rest = [] then some v else none
  | none => none

/-- Lookup in a Python dict built from an insertion-ordered field list:
the LAST binding of a key wins (later duplicate assignments overwrite). -/
def py_lookup : List (String × JValue) → String → Option JValue
  | [], _ => none
  | (k, v) :: rest, key =>
    match py_lookup rest key with
    | some w => some w
    | none => if k = key then some v else none

/-- Python type name of a decoded JSON value, as it appears in the
`AttributeError` message text. -/
def py_type_name : JValue → String
  | JValue.null => "NoneType"
  | JValue.bool _ => "bool"
  | JValue.num _ => "int"
  | JValue.numF _ => "float"
  | JValue.str _ => "str"
  | JValue.arr _ => "list"
  | JValue.obj _ => "dict"

/-- The `str(e)` text of the `AttributeError` raised by `.get` on a
non-dict value. -/
def attribute_error_text (j : JValue) : String :=
  "\x27" ++ py_type_name j ++ "\x27 object has no attribute \x27get\x27"

/-- Model of Python `value.get(key, default)`.  A dict returns the binding
of the key, or the default when absent (Python `None` and JSON `null` are
the same object, both modelled by `JValue.null`).  Any non-dict value
raises `AttributeError`; the `Except.error` payload is `str(e)`. -/
def py_get (j : JValue) (key : String) (dflt : JValue) : Except String JValue :=
  match j with
  | JValue.obj fs => Except.ok ((py_lookup fs key).getD dflt)
  | _ => Except.error (attribute_error_text j)

mutual

/-- Model of Python `repr` on decoded JSON values (string escaping inside
containers is simplified to always-single-quotes, no escapes). -/
def py_repr : JValue → String
  | JValue.null => "None"
  | JValue.bool true => "True"
  | JValue.bool false => "False"
  | JValue.num n => toString n
  | JValue.numF raw => raw
  | JValue.str s => "\x27" ++ s ++ "\x27"
  | JValue.arr xs => "[" ++ py_repr_list xs ++ "]"
  | JValue.obj fs => "\x7b" ++ py_repr_fields fs ++ "\x7d"

/-- Comma-separated `repr` of list elements. -/
def py_repr_list : List JValue → String
  | [] => ""
  | [x] => py_repr x
  | x :: y :: xs => py_repr x ++ ", " ++ py_repr_list (y :: xs)

/-- Comma-separated `repr` of dict fields. -/
def py_repr_fields : List (String × JValue) → String
  | [] => ""
  | [(k, v)] => "\x27" ++ k ++ "\x27: " ++ py_repr v
  | (k, v) :: p :: fs =>
    "\x27" ++ k ++ "\x27: " ++ py_repr v ++ ", " ++ py_repr_fields (p :: fs)

end

/-- Python `str()` of a decoded JSON value, as interpolated by the
f-strings that build the downstream queries: a `str` renders as itself,
`None` as `"None"`, everything else as its `repr`. -/
def py_str (j : JValue) : String :=
  match j with
  | JValue.str s => s
  | _ => py_repr j

/-- Shape of the value produced by `agent.get_response`: a plain response,
or a composite/tuple response whose first element is the payload. -/
inductive Resp where
  | single (s : String)
  | tup (first : String) (rest : List String)

/-- Behaviour of one underlying agent call: return a response, or raise a
fault (carrying the fault text). -/
inductive AgentBehavior where
  | returns (r : Resp)
  | raises (msg : String)

/-- `invoke_agent` of `src/app.py` lines 70-79: awaits the response,
unwraps a tuple to its first element, and converts ANY raised fault into
the fixed sentinel text `"Error invoking agent."` (note the trailing
period in the source literal) after logging it; it never re-raises. -/
def invoke_agent : AgentBehavior → String
  | AgentBehavior.returns (Resp.single s) => s
  | AgentBehavior.returns (Resp.tup s _) => s
  | AgentBehavior.raises _ => "Error invoking agent."

/-- Oracle for the external world of one run: whether acquiring the
credential raises, whether creating the client raises, whether
`client.agents.get_agent` raises for a given agent id (each carrying
`str(e)`), and the behaviour of `get_response` per agent id and query. -/
structure Env where
  creds_fault : Option String
  client_fault : Option String
  get_agent_fault : String → Option String
  respond : String → String → AgentBehavior

/-- Ghost trace events: one agent invocation (agent id and query text), or
one `json.loads` parse attempt on the given text. -/
inductive Ev where
  | invoke (agent_id : String) (query : String)
  | parse (s : String)

/-- A recorded value in the `results` dict: every stage output is a string,
and the `"Parsed Claim"` entry is the decoded JSON value. -/
inductive RVal where
  | str (s : String)
  | json (j : JValue)

/-- Outcome of a run: the `results` mapping in insertion order, plus the
ghost trace of invocations and parse attempts in order. -/
structure RunOut where
  results : List (String × RVal)
  trace : List Ev

/-- Agent id of ClaimHandlerAgent in `AGENTS_AND_QUERIES`. -/
def claim_handler_id : String := "asst_8WPO5fEmxYN96N2yAoIjbrDb"

/-- Agent id of PolicyAssessorAgent in `AGENTS_AND_QUERIES`. -/
def policy_assessor_id : String := "asst_eUiaOd5KjushG1semhHqtZtX"

/-- Agent id of FraudDetectionAgent in `AGENTS_AND_QUERIES`. -/
def fraud_detection_id : String := "asst_6dHVA9CV9BH3NAlootUQoj23"

/-- Agent id of ClaimEvaluatorAgent in `AGENTS_AND_QUERIES`. -/
def claim_evaluator_id : String := "asst_k2syPJidqJUINBz7g1jvzssN"

/-- The fixed JSON-format instruction block appended to the claim query
(`JSON_FORMAT` in `src/app.py`). -/
def JSON_FORMAT : String :=
  "\nPlease provide a valid JSON response (no markdown formatting, just JSON) with the following structure:\n" ++
  "\x7b\n" ++
  "  \x22policy_assessor\x22: \x7b\n" ++
  "    \x22policy_number\x22: \x22value\x22,\n" ++
  "    \x22claim_type\x22: \x22value\x22,\n" ++
  "    \x22damage_claim\x22: \x22value\x22\n" ++
  "  \x7d,\n" ++
  "  \x22fraud_detector\x22: \x7b\n" ++
  "    \x22claim_description\x22: \x22value\x22\n" ++
  "  \x7d\n" ++
  "\x7d"

/-- The clarification query of lines 108-111 (the two adjacent Python
string literals concatenate with no space between the sentences). -/
def clarification_query : String :=
  "The output provided does not appear to be valid JSON." ++
  "Please provide a valid JSON response following the specified structure."

/-- The PolicyAssessorAgent query built on lines 130-133 from the three
extracted (str-converted) values. -/
def policy_query (pn ct dc : String) : String :=
  "Based on the claim details: policy number " ++ pn ++ ", claim type " ++ ct ++
  ", and damage claim amount " ++ dc ++
  " euros, determine if the customer is appropriately covered under their policy."

/-- The FraudDetectionAgent query built on lines 148-151. -/
def fraud_query (cd : String) : String :=
  "Using the following claim description: " ++ cd ++
  ", evaluate whether there are any red flags or suspicious elements in the claim."

/-- The ClaimEvaluatorAgent query built on lines 163-167, embedding both
prior stage outputs verbatim. -/
def evaluator_query (pa fa : String) : String :=
  "Policy Assessment: " ++ pa ++ "\nFraud Assessment: " ++ fa ++
  "\nBased on the above assessments, should the claim be approved or rejected? Provide a concise explanation."

/-- Pipeline continuation after a successful JSON parse (`src/app.py`
lines 121-173): record the parsed claim, extract the policy fields (each
line recomputes `parsed_claim.get('policy_assessor', {})` as the source
does), run the PolicyAssessor, FraudDetection and ClaimEvaluator stages in
order, recording each raw output immediately upon return.  A raised
`AttributeError` from a `.get` on a non-dict, or a raised `get_agent`
fault, falls into the outer `except` of line 175, which appends the fault
text under `"error"` and returns.  The returned trace holds only the
events of this continuation. -/
def after_parse (env : Env) (results0 : List (String × RVal)) (parsed : JValue) : RunOut :=
  let results := results0 ++ [("Parsed Claim", RVal.json parsed)]
  match (py_get parsed "policy_assessor" (JValue.obj [])).bind
      (fun pa => py_get pa "policy_number" JValue.null) with
  | Except.error e => ⟨results ++ [("error", RVal.str e)], []⟩
  | Except.ok policy_number =>
    match (py_get parsed "policy_assessor" (JValue.obj [])).bind
        (fun pa => py_get pa "claim_type" JValue.null) with
    | Except.error e => ⟨results ++ [("error", RVal.str e)], []⟩
    | Except.ok claim_type =>
      match (py_get parsed "policy_assessor" (JValue.obj [])).bind
          (fun pa => py_get pa "damage_claim" JValue.null) with
      | Except.error e => ⟨results ++ [("error", RVal.str e)], []⟩
      | Except.ok damage_claim =>
        let policy_q := policy_query (py_str policy_number) (py_str claim_type) (py_str damage_claim)
        match env.get_agent_fault policy_assessor_id with
        | some e => ⟨results ++ [("error", RVal.str e)], []⟩
        | none =>
          let policy_assessment := invoke_agent (env.respond policy_assessor_id policy_q)
          let results := results ++ [("PolicyAssessorAgent Output", RVal.str policy_assessment)]
          let tr := [Ev.invoke policy_assessor_id policy_q]
          match (py_get parsed "fraud_detector" (JValue.obj [])).bind
              (fun fd => py_get fd "claim_description" JValue.null) with
          | Except.error e => ⟨results ++ [("error", RVal.str e)], tr⟩
          | Except.ok claim_description =>
            let fraud_q := fraud_query (py_str claim_description)
            match env.get_agent_fault fraud_detection_id with
            | some e => ⟨results ++ [("error", RVal.str e)], tr⟩
            | none =>
              let fraud_assessment := invoke_agent (env.respond fraud_detection_id fraud_q)
              let results := results ++ [("FraudDetectionAgent Output", RVal.str fraud_assessment)]
              let tr := tr ++ [Ev.invoke fraud_detection_id fraud_q]
              let eval_q := evaluator_query policy_assessment fraud_assessment
              match env.get_agent_fault claim_evaluator_id with
              | some e => ⟨results ++ [("error", RVal.str e)], tr⟩
              | none =>
                let claim_evaluator_assesment := invoke_agent (env.respond claim_evaluator_id eval_q)
                ⟨results ++ [("ClaimEvaluatorAgent Output", RVal.str claim_evaluator_assesment)],
                 tr ++ [Ev.invoke claim_evaluator_id eval_q]⟩

/-- The pipeline `process_claim_run_agents` of `src/app.py` lines 82-178:
append `JSON_FORMAT` to the query, invoke the ClaimHandler agent, record
its raw output, attempt a strict JSON parse, on failure invoke the same
agent once with the clarification query and parse once more, on a second
failure record the fatal parse message under `"error"` and return; on a
successful parse continue with `after_parse`.  Credential, client and
`get_agent` faults fall into the outer `except`, recording `str(e)` under
`"error"`. -/
def process_claim_run_agents (env : Env) (custom_claim_query : String) : RunOut :=
  match env.creds_fault with
  | some e => ⟨[("error", RVal.str e)], []⟩
  | none =>
    match env.client_fault with
    | some e => ⟨[("error", RVal.str e)], []⟩
    | none =>
      let full_claim_query := custom_claim_query ++ JSON_FORMAT
      match env.get_agent_fault claim_handler_id with
      | some e => ⟨[("error", RVal.str e)], []⟩
      | none =>
        let structured_claim_json := invoke_agent (env.respond claim_handler_id full_claim_query)
        let results := [("ClaimHandlerAgent Output", RVal.str structured_claim_json)]
        let tr := [Ev.invoke claim_handler_id full_claim_query, Ev.parse structured_claim_json]
        match json_loads structured_claim_json with
        | some parsed =>
          let out := after_parse env results parsed
          ⟨out.results, tr ++ out.trace⟩
        | none =>
          let clarification_output := invoke_agent (env.respond claim_handler_id clarification_query)
          let tr := tr ++ [Ev.invoke claim_handler_id clarification_query,
                           Ev.parse clarification_output]
          match json_loads clarification_output with
          | some parsed =>
            let out := after_parse env results parsed
            ⟨out.results, tr ++ out.trace⟩
          | none =>
            ⟨results ++ [("error", RVal.str "Clarification attempt failed, stop process.")], tr⟩

/-- Does this trace event invoke the given agent id? -/
def is_invoke_of (id : String) : Ev → Bool
  | Ev.invoke i _ => i == id
  | Ev.parse _ => false

/-- Is this trace event a JSON parse attempt? -/
def is_parse_ev : Ev → Bool
  | Ev.invoke _ _ => false
  | Ev.parse _ => true

/-- Number of invocations of the given agent id in a trace. -/
def count_invokes (tr : List Ev) (id : String) : Nat :=
  (tr.filter (is_invoke_of id)).length

/-- Number of JSON parse attempts in a trace. -/
def count_parses (tr : List Ev) : Nat :=
  (tr.filter is_parse_ev).length

/-- The five result labels of a fully successful run, in insertion order. -/
def stage_keys : List String :=
  ["ClaimHandlerAgent Output", "Parsed Claim", "PolicyAssessorAgent Output",
   "FraudDetectionAgent Output", "ClaimEvaluatorAgent Output"]

/-- Deterministic stub environment for the C1 witness: every invocation
returns the non-JSON text "not json". -/
def env_c1 : Env :=
  ⟨none, none, fun _ => none, fun _ _ => AgentBehavior.returns (Resp.single "not json")⟩

/-- Stub environment for the C2 witness: the PolicyAssessor invocation
raises, every other agent answers with the empty JSON object. -/
def env_c2 : Env :=
  ⟨none, none, fun _ => none,
   fun id _ =>
     if id = policy_assessor_id then AgentBehavior.raises "quota exceeded"
     else AgentBehavior.returns (Resp.single "\x7b\x7d")⟩

/-- Stub environment for the C4 witness. -/
def env_c4w : Env :=
  ⟨none, none, fun _ => none, fun _ _ => AgentBehavior.returns (Resp.single "maybe json")⟩

/-- Stub environment for the C5 witness. -/
def env_c5w : Env :=
  ⟨none, none, fun _ => none, fun _ _ => AgentBehavior.raises "socket closed"⟩

/-- Stub environment refuting C6 as stated: the ClaimHandler output is
"[]", which decodes as valid JSON (a list), but `.get` on a list raises. -/
def env_c6_bad : Env :=
  ⟨none, none, fun _ => none, fun _ _ => AgentBehavior.returns (Resp.single "[]")⟩

/-- Stub environment for the C6 witness: the handler returns the empty
JSON object, whose two expected members are absent. -/
def env_c6w : Env :=
  ⟨none, none, fun _ => none, fun _ _ => AgentBehavior.returns (Resp.single "\x7b\x7d")⟩

/-- Stub environment for the C7 witness: the handler returns the empty
JSON object. -/
def env_c7 : Env :=
  ⟨none, none, fun _ => none, fun _ _ => AgentBehavior.returns (Resp.single "\x7b\x7d")⟩

/-- Deterministic stub environment for the C8 witness. -/
def env_c8 : Env :=
  ⟨none, none, fun _ => none,
   fun _ qq => AgentBehavior.returns (Resp.single ("echo: " ++ qq))⟩

/-- Stub environment for the C9 witness: every invocation raises. -/
def env_c9 : Env :=
  ⟨none, none, fun _ => none, fun _ _ => AgentBehavior.raises "connection refused"⟩

/-- Deterministic stub environment for the C10 witness. -/
def env_c10 : Env :=
  ⟨none, none, fun _ => none, fun _ _ => AgentBehavior.returns (Resp.single "still not json")⟩

theorem after_parse_results_head (env : Env) (r0 : List (String × RVal)) (p : JValue) :
    ∃ rest, (after_parse env r0 p).results = r0 ++ ("Parsed Claim", RVal.json p) :: rest := by
  unfold after_parse
  repeat' split
  all_goals exact ⟨_, by dsimp only; (try simp only [List.append_assoc, List.cons_append,
    List.singleton_append, List.nil_append]); rfl⟩

theorem after_parse_no_handler_invoke (env : Env) (r0 : List (String × RVal)) (p : JValue) :
    count_invokes (after_parse env r0 p).trace claim_handler_id = 0 := by
  unfold after_parse
  repeat' split
  all_goals simp +decide [count_invokes, is_invoke_of, claim_handler_id,
    policy_assessor_id, fraud_detection_id, claim_evaluator_id]

theorem after_parse_no_parse_ev (env : Env) (r0 : List (String × RVal)) (p : JValue) :
    count_parses (after_parse env r0 p).trace = 0 := by
  unfold after_parse
  repeat' split
  all_goals simp [count_parses, is_parse_ev]

theorem after_parse_keys (env : Env) (r0 : List (String × RVal)) (p : JValue) :
    (after_parse env r0 p).results.map Prod.fst = r0.map Prod.fst ++ ["Parsed Claim", "error"] ∨
    (after_parse env r0 p).results.map Prod.fst =
      r0.map Prod.fst ++ ["Parsed Claim", "PolicyAssessorAgent Output", "error"] ∨
    (after_parse env r0 p).results.map Prod.fst =
      r0.map Prod.fst ++ ["Parsed Claim", "PolicyAssessorAgent Output",
        "FraudDetectionAgent Output", "error"] ∨
    (after_parse env r0 p).results.map Prod.fst =
      r0.map Prod.fst ++ ["Parsed Claim", "PolicyAssessorAgent Output",
        "FraudDetectionAgent Output", "ClaimEvaluatorAgent Output"] := by
  unfold after_parse
  repeat' split
  all_goals simp

/-- The sentinel text returned by `invoke_agent` on a fault is not valid
JSON, so a JSON parse attempt on it fails. -/
theorem sentinel_not_json : json_loads "Error invoking agent." = none := rfl

/-- C3 counterexample: on a fault, `invoke_agent` does NOT return the
string "Error invoking agent" claimed by the specification — the source
literal carries a trailing period. -/
theorem c3_counterexample :
    invoke_agent (AgentBehavior.raises "network timeout") ≠ "Error invoking agent" := by
  decide

/-- C3 (amended): for every fault raised by the underlying invocation,
`invoke_agent` catches it and returns the fixed sentinel string
"Error invoking agent." (with a trailing period); being a total function
into `String`, it never propagates the fault to its caller. -/
theorem c3_sentinel_on_fault (msg : String) :
    invoke_agent (AgentBehavior.raises msg) = "Error invoking agent." := rfl

/-- C1: when the credential, client and handler lookup succeed but both
the ClaimHandler response and the clarification response fail strict JSON
decoding, the run records the fatal parse message as the top-level
"error" entry of the result, and every agent invocation in the run's
trace is an invocation of the ClaimHandler agent — so no PolicyAssessor,
FraudDetector or ClaimEvaluator invocation occurs. -/
theorem c1_fatal_parse_no_downstream (env : Env) (q : String)
    (h1 : env.creds_fault = none) (h2 : env.client_fault = none)
    (h3 : env.get_agent_fault claim_handler_id = none)
    (h4 : json_loads (invoke_agent (env.respond claim_handler_id (q ++ JSON_FORMAT))) = none)
    (h5 : json_loads (invoke_agent (env.respond claim_handler_id clarification_query)) = none) :
    List.lookup "error" (process_claim_run_agents env q).results
      = some (RVal.str "Clarification attempt failed, stop process.")
    ∧ ∀ i qq, Ev.invoke i qq ∈ (process_claim_run_agents env q).trace → i = claim_handler_id := by
  simp only [process_claim_run_agents, h1, h2, h3, h4, h5]
  constructor
  · simp +decide [List.lookup]
  · intro i qq h
    simp at h
    tauto

theorem c1_witness :
    List.lookup "error" (process_claim_run_agents env_c1 "my claim").results
      = some (RVal.str "Clarification attempt failed, stop process.")
    ∧ ∀ i qq, Ev.invoke i qq ∈ (process_claim_run_agents env_c1 "my claim").trace →
        i = claim_handler_id :=
  c1_fatal_parse_no_downstream env_c1 "my claim" rfl rfl rfl rfl rfl

/-- C10: a run that terminates via the fatal parse error returns exactly
two entries — the recorded ClaimHandler stage output and the top-level
"error" entry — with no parsed-claim entry and no downstream outputs. -/
theorem c10_fatal_parse_two_entries (env : Env) (q : String)
    (h1 : env.creds_fault = none) (h2 : env.client_fault = none)
    (h3 : env.get_agent_fault claim_handler_id = none)
    (h4 : json_loads (invoke_agent (env.respond claim_handler_id (q ++ JSON_FORMAT))) = none)
    (h5 : json_loads (invoke_agent (env.respond claim_handler_id clarification_query)) = none) :
    (process_claim_run_agents env q).results =
      [("ClaimHandlerAgent Output",
        RVal.str (invoke_agent (env.respond claim_handler_id (q ++ JSON_FORMAT)))),
       ("error", RVal.str "Clarification attempt failed, stop process.")] := by
  simp [process_claim_run_agents, h1, h2, h3, h4, h5]

theorem c10_witness :
    (process_claim_run_agents env_c10 "claim text").results =
      [("ClaimHandlerAgent Output",
        RVal.str (invoke_agent (env_c10.respond claim_handler_id ("claim text" ++ JSON_FORMAT)))),
       ("error", RVal.str "Clarification attempt failed, stop process.")] :=
  c10_fatal_parse_two_entries env_c10 "claim text" rfl rfl rfl rfl rfl

/-- C9: when the ClaimHandler invocation itself raises, the sentinel
returned by the invoker is not valid JSON, so the first parse attempt
fails and the clarification round-trip is triggered (the handler agent is
invoked exactly twice); when the clarification invocation also raises,
the run terminates with the fatal parse message as the "error" entry
rather than surfacing either invocation fault. -/
theorem c9_invoker_fault_forces_clarification (env : Env) (q m1 m2 : String)
    (h1 : env.creds_fault = none) (h2 : env.client_fault = none)
    (h3 : env.get_agent_fault claim_handler_id = none)
    (h4 : env.respond claim_handler_id (q ++ JSON_FORMAT) = AgentBehavior.raises m1)
    (h5 : env.respond claim_handler_id clarification_query = AgentBehavior.raises m2) :
    json_loads "Error invoking agent." = none
    ∧ count_invokes (process_claim_run_agents env q).trace claim_handler_id = 2
    ∧ List.lookup "error" (process_claim_run_agents env q).results
        = some (RVal.str "Clarification attempt failed, stop process.") := by
  refine ⟨rfl, ?_, ?_⟩ <;>
    simp +decide [process_claim_run_agents, h1, h2, h3, h4, h5, invoke_agent,
      sentinel_not_json, count_invokes, is_invoke_of, List.lookup]

theorem c9_witness :
    json_loads "Error invoking agent." = none
    ∧ count_invokes (process_claim_run_agents env_c9 "some claim").trace claim_handler_id = 2
    ∧ List.lookup "error" (process_claim_run_agents env_c9 "some claim").results
        = some (RVal.str "Clarification attempt failed, stop process.") :=
  c9_invoker_fault_forces_clarification env_c9 "some claim" "connection refused"
    "connection refused" rfl rfl rfl rfl rfl

/-- C7: when the ClaimHandler response decodes as valid JSON, parsing
succeeds on the first attempt: exactly one parse attempt and exactly one
ClaimHandler invocation occur (so no clarification round-trip), and the
decoded value is recorded under the "Parsed Claim" entry. -/
theorem c7_valid_json_first_attempt (env : Env) (q : String) (j : JValue)
    (h1 : env.creds_fault = none) (h2 : env.client_fault = none)
    (h3 : env.get_agent_fault claim_handler_id = none)
    (h4 : json_loads (invoke_agent (env.respond claim_handler_id (q ++ JSON_FORMAT))) = some j) :
    List.lookup "Parsed Claim" (process_claim_run_agents env q).results = some (RVal.json j)
    ∧ count_invokes (process_claim_run_agents env q).trace claim_handler_id = 1
    ∧ count_parses (process_claim_run_agents env q).trace = 1 := by
  simp only [process_claim_run_agents, h1, h2, h3, h4]
  obtain ⟨rest, hr⟩ := after_parse_results_head env
    [("ClaimHandlerAgent Output",
      RVal.str (invoke_agent (env.respond claim_handler_id (q ++ JSON_FORMAT))))] j
  have hh := after_parse_no_handler_invoke env
    [("ClaimHandlerAgent Output",
      RVal.str (invoke_agent (env.respond claim_handler_id (q ++ JSON_FORMAT))))] j
  have hp := after_parse_no_parse_ev env
    [("ClaimHandlerAgent Output",
      RVal.str (invoke_agent (env.respond claim_handler_id (q ++ JSON_FORMAT))))] j
  refine ⟨?_, ?_, ?_⟩
  · rw [hr]; simp +decide [List.lookup]
  · simp only [count_invokes, List.filter_append, List.length_append] at hh ⊢
    simp +decide [is_invoke_of, hh]
  · simp only [count_parses, List.filter_append, List.length_append] at hp ⊢
    simp [is_parse_ev, hp]

theorem c7_witness :
    List.lookup "Parsed Claim" (process_claim_run_agents env_c7 "a claim").results
      = some (RVal.json (JValue.obj []))
    ∧ count_invokes (process_claim_run_agents env_c7 "a claim").trace claim_handler_id = 1
    ∧ count_parses (process_claim_run_agents env_c7 "a claim").trace = 1 :=
  c7_valid_json_first_attempt env_c7 "a claim" (JValue.obj []) rfl rfl rfl rfl

theorem count_invokes_append (a b : List Ev) (id : String) :
    count_invokes (a ++ b) id = count_invokes a id + count_invokes b id := by
  simp [count_invokes]

theorem count_parses_append (a b : List Ev) :
    count_parses (a ++ b) = count_parses a + count_parses b := by
  simp [count_parses]

/-- The continuation after a successful parse never invokes the
ClaimHandler agent. -/
theorem after_parse_filter_handler (env : Env) (r0 : List (String × RVal)) (p : JValue) :
    List.filter (is_invoke_of claim_handler_id) (after_parse env r0 p).trace = [] := by
  unfold after_parse
  repeat' split
  all_goals simp +decide [is_invoke_of, claim_handler_id, policy_assessor_id,
    fraud_detection_id, claim_evaluator_id]

/-- The continuation after a successful parse performs no JSON parse
attempt. -/
theorem after_parse_filter_parse (env : Env) (r0 : List (String × RVal)) (p : JValue) :
    List.filter is_parse_ev (after_parse env r0 p).trace = [] := by
  unfold after_parse
  repeat' split
  all_goals simp [is_parse_ev]

/-- C4: every run makes at most two JSON parse attempts on the
ClaimHandler output and invokes the ClaimHandler agent at most twice
(the original call plus at most the single clarification round-trip). -/
theorem c4_at_most_one_retry (env : Env) (q : String) :
    count_parses (process_claim_run_agents env q).trace ≤ 2
    ∧ count_invokes (process_claim_run_agents env q).trace claim_handler_id ≤ 2 := by
  unfold process_claim_run_agents
  dsimp only
  repeat' split
  all_goals simp +decide [count_invokes, count_parses, is_invoke_of, is_parse_ev,
    List.filter_cons, List.filter_append, after_parse_filter_handler, after_parse_filter_parse]

/-- Membership of the recorded ClaimHandler entry is untouched by the
continuation after a successful parse: any `"ClaimHandlerAgent Output"`
entry of the final results was already in the results passed in. -/
theorem after_parse_mem_handler (env : Env) (r0 : List (String × RVal)) (p : JValue) (v : RVal)
    (h : ("ClaimHandlerAgent Output", v) ∈ (after_parse env r0 p).results) :
    ("ClaimHandlerAgent Output", v) ∈ r0 := by
  unfold after_parse at h
  repeat' split at h
  all_goals simpa +decide using h


/-- A raised invocation fault yields the sentinel response text. -/
theorem invoke_agent_raises (m : String) :
    invoke_agent (AgentBehavior.raises m) = "Error invoking agent." := rfl

/-- C2: in a run that reaches the PolicyAssessor stage (parse succeeded
and field extraction raises nothing), if the PolicyAssessor invocation
raises, the invoker's sentinel text is recorded as that stage's output
and the pipeline still proceeds to invoke the FraudDetector and the
ClaimEvaluator (whose query embeds the sentinel verbatim); no exception
reaches the caller, which receives an ordinary result object. -/
theorem c2_policy_fault_pipeline_continues (env : Env) (q : String)
    (parsed pn ct dc cd : JValue) (m : String)
    (h1 : env.creds_fault = none) (h2 : env.client_fault = none)
    (h3 : ∀ i, env.get_agent_fault i = none)
    (h4 : json_loads (invoke_agent (env.respond claim_handler_id (q ++ JSON_FORMAT)))
        = some parsed)
    (h5 : (py_get parsed "policy_assessor" (JValue.obj [])).bind
        (fun pa => py_get pa "policy_number" JValue.null) = Except.ok pn)
    (h6 : (py_get parsed "policy_assessor" (JValue.obj [])).bind
        (fun pa => py_get pa "claim_type" JValue.null) = Except.ok ct)
    (h7 : (py_get parsed "policy_assessor" (JValue.obj [])).bind
        (fun pa => py_get pa "damage_claim" JValue.null) = Except.ok dc)
    (h8 : (py_get parsed "fraud_detector" (JValue.obj [])).bind
        (fun fd => py_get fd "claim_description" JValue.null) = Except.ok cd)
    (h9 : env.respond policy_assessor_id
        (policy_query (py_str pn) (py_str ct) (py_str dc)) = AgentBehavior.raises m) :
    List.lookup "PolicyAssessorAgent Output" (process_claim_run_agents env q).results
      = some (RVal.str "Error invoking agent.")
    ∧ Ev.invoke fraud_detection_id (fraud_query (py_str cd))
        ∈ (process_claim_run_agents env q).trace
    ∧ Ev.invoke claim_evaluator_id
        (evaluator_query "Error invoking agent."
          (invoke_agent (env.respond fraud_detection_id (fraud_query (py_str cd)))))
        ∈ (process_claim_run_agents env q).trace := by
  simp only [process_claim_run_agents, after_parse, h1, h2, h3, h4, h5, h6, h7, h8, h9,
    invoke_agent_raises]
  refine ⟨?_, ?_, ?_⟩
  · simp +decide [List.lookup]
  · simp
  · simp

theorem c2_witness :
    List.lookup "PolicyAssessorAgent Output"
        (process_claim_run_agents env_c2 "w claim").results
      = some (RVal.str "Error invoking agent.")
    ∧ Ev.invoke fraud_detection_id (fraud_query (py_str JValue.null))
        ∈ (process_claim_run_agents env_c2 "w claim").trace
    ∧ Ev.invoke claim_evaluator_id
        (evaluator_query "Error invoking agent."
          (invoke_agent (env_c2.respond fraud_detection_id (fraud_query (py_str JValue.null)))))
        ∈ (process_claim_run_agents env_c2 "w claim").trace :=
  c2_policy_fault_pipeline_continues env_c2 "w claim" (JValue.obj []) JValue.null JValue.null
    JValue.null JValue.null "quota exceeded" rfl rfl (fun _ => rfl) rfl rfl rfl rfl rfl rfl

/-- C6 counterexample: a ClaimHandler output that decodes as valid JSON
(the empty list) does NOT reach EvaluatorDone: the `.get` attribute access
on the non-dict value raises, the run aborts with the AttributeError text
recorded under "error", and no downstream stage output is recorded. -/
theorem c6_counterexample :
    json_loads "[]" = some (JValue.arr [])
    ∧ (process_claim_run_agents env_c6_bad "claim").results.map Prod.fst
        = ["ClaimHandlerAgent Output", "Parsed Claim", "error"]
    ∧ List.lookup "error" (process_claim_run_agents env_c6_bad "claim").results
        = some (RVal.str "\x27list\x27 object has no attribute \x27get\x27") :=
  ⟨rfl, rfl, rfl⟩

/-- C6 (amended): for every ClaimHandler output that decodes as a JSON
OBJECT whose "policy_assessor" and "fraud_detector" members, when
present, are themselves objects, absent fields are tolerated downstream
without raising — the extracted values become null placeholders (rendered
"None" in the downstream queries) — and the run reaches the terminal
EvaluatorDone state: all four stage outputs are recorded, there is no
"error" entry, and when "policy_assessor" is wholly absent the
PolicyAssessor is invoked with the all-"None" placeholder query. -/
theorem c6_amended_object_tolerates_missing (env : Env) (q : String)
    (fs : List (String × JValue))
    (h1 : env.creds_fault = none) (h2 : env.client_fault = none)
    (h3 : ∀ i, env.get_agent_fault i = none)
    (h4 : json_loads (invoke_agent (env.respond claim_handler_id (q ++ JSON_FORMAT)))
        = some (JValue.obj fs))
    (h5 : ∀ v, py_lookup fs "policy_assessor" = some v → ∃ gs, v = JValue.obj gs)
    (h6 : ∀ v, py_lookup fs "fraud_detector" = some v → ∃ gs, v = JValue.obj gs) :
    (process_claim_run_agents env q).results.map Prod.fst = stage_keys
    ∧ List.lookup "error" (process_claim_run_agents env q).results = none
    ∧ (py_lookup fs "policy_assessor" = none →
        Ev.invoke policy_assessor_id (policy_query "None" "None" "None")
          ∈ (process_claim_run_agents env q).trace) := by
  simp only [process_claim_run_agents, after_parse, h1, h2, h3, h4]
  rcases hpol : py_lookup fs "policy_assessor" with _ | v
  · rcases hfd : py_lookup fs "fraud_detector" with _ | w
    · simp only [py_get, hpol, hfd, Option.getD, py_lookup, Except.bind]
      refine ⟨by simp [stage_keys], by simp +decide [List.lookup], ?_⟩
      intro _
      simp [py_str, py_repr]
    · obtain ⟨gs, rfl⟩ := h6 w hfd
      simp only [py_get, hpol, hfd, Option.getD, py_lookup, Except.bind]
      refine ⟨by simp [stage_keys], by simp +decide [List.lookup], ?_⟩
      intro _
      simp [py_str, py_repr]
  · obtain ⟨gs, rfl⟩ := h5 v hpol
    rcases hfd : py_lookup fs "fraud_detector" with _ | w
    · simp only [py_get, hpol, hfd, Option.getD, py_lookup, Except.bind]
      refine ⟨by simp [stage_keys], by simp +decide [List.lookup], ?_⟩
      intro hc
      simp at hc
    · obtain ⟨gs2, rfl⟩ := h6 w hfd
      simp only [py_get, hpol, hfd, Option.getD, py_lookup, Except.bind]
      refine ⟨by simp [stage_keys], by simp +decide [List.lookup], ?_⟩
      intro hc
      simp at hc

theorem c6_witness :
    (process_claim_run_agents env_c6w "a query").results.map Prod.fst = stage_keys
    ∧ List.lookup "error" (process_claim_run_agents env_c6w "a query").results = none
    ∧ (py_lookup ([] : List (String × JValue)) "policy_assessor" = none →
        Ev.invoke policy_assessor_id (policy_query "None" "None" "None")
          ∈ (process_claim_run_agents env_c6w "a query").trace) :=
  c6_amended_object_tolerates_missing env_c6w "a query" [] rfl rfl (fun _ => rfl) rfl
    (fun _ h => by simp [py_lookup] at h) (fun _ h => by simp [py_lookup] at h)

/-- C8: the pipeline is a pure function of the input query and the agent
stub — two runs with identical input query strings against the same
deterministic external behaviour produce identical `RunOut` structures
(same labels, inserted in the same order, with the same values). -/
theorem c8_identical_runs (env1 env2 : Env) (q : String)
    (h1 : env1.creds_fault = env2.creds_fault)
    (h2 : env1.client_fault = env2.client_fault)
    (h3 : env1.get_agent_fault = env2.get_agent_fault)
    (h4 : env1.respond = env2.respond) :
    process_claim_run_agents env1 q = process_claim_run_agents env2 q := by
  obtain ⟨c1, l1, g1, r1⟩ := env1
  obtain ⟨c2, l2, g2, r2⟩ := env2
  dsimp only at h1 h2 h3 h4
  subst h1
  subst h2
  subst h3
  subst h4
  rfl

theorem c8_witness :
    process_claim_run_agents env_c8 "same query" = process_claim_run_agents env_c8 "same query" :=
  c8_identical_runs env_c8 env_c8 "same query" rfl rfl rfl rfl

theorem c3_witness :
    invoke_agent (AgentBehavior.raises "deadline exceeded") = "Error invoking agent." :=
  c3_sentinel_on_fault "deadline exceeded"

theorem c4_witness :
    count_parses (process_claim_run_agents env_c4w "any claim").trace ≤ 2
    ∧ count_invokes (process_claim_run_agents env_c4w "any claim").trace claim_handler_id ≤ 2 :=
  c4_at_most_one_retry env_c4w "any claim"


/-- A `.get` on a non-dict value fails with the AttributeError text of
that value's Python type. -/
theorem py_get_error_shape (j : JValue) (key : String) (d : JValue) (e : String)
    (h : py_get j key d = Except.error e) : ∃ j2, e = attribute_error_text j2 := by
  unfold py_get at h
  split at h
  all_goals first
    | (injection h with h2; exact ⟨_, h2.symm⟩)
    | injection h

/-- The two-level `.get` chain of the field extraction only ever fails
with an AttributeError text. -/
theorem py_get_bind_error (p : JValue) (key1 key2 : String) (e : String)
    (h : (py_get p key1 (JValue.obj [])).bind (fun pa => py_get pa key2 JValue.null)
        = Except.error e) : ∃ j2, e = attribute_error_text j2 := by
  cases h1 : py_get p key1 (JValue.obj []) with
  | error e1 =>
    rw [h1] at h
    simp [Except.bind] at h
    obtain ⟨j2, hj⟩ := py_get_error_shape p key1 (JValue.obj []) e1 h1
    exact ⟨j2, by rw [← h, hj]⟩
  | ok pa =>
    rw [h1] at h
    simp [Except.bind] at h
    exact py_get_error_shape pa key2 JValue.null e h

/-- Every entry appended by the continuation after a successful parse is
either inherited from the results passed in, the parsed claim, one of the
three downstream stage outputs recorded as the raw response of the
corresponding traced invocation, or an error entry carrying a fault
description (an AttributeError text or a raised `get_agent` fault). -/
theorem after_parse_entry_descr (env : Env) (r0 : List (String × RVal)) (p : JValue) :
    ∀ e, e ∈ (after_parse env r0 p).results →
      e ∈ r0
      ∨ e = ("Parsed Claim", RVal.json p)
      ∨ (∃ qq, Ev.invoke policy_assessor_id qq ∈ (after_parse env r0 p).trace ∧
          e = ("PolicyAssessorAgent Output",
               RVal.str (invoke_agent (env.respond policy_assessor_id qq))))
      ∨ (∃ qq, Ev.invoke fraud_detection_id qq ∈ (after_parse env r0 p).trace ∧
          e = ("FraudDetectionAgent Output",
               RVal.str (invoke_agent (env.respond fraud_detection_id qq))))
      ∨ (∃ qq, Ev.invoke claim_evaluator_id qq ∈ (after_parse env r0 p).trace ∧
          e = ("ClaimEvaluatorAgent Output",
               RVal.str (invoke_agent (env.respond claim_evaluator_id qq))))
      ∨ (∃ s, e = ("error", RVal.str s) ∧
          ((∃ j, s = attribute_error_text j)
           ∨ env.get_agent_fault policy_assessor_id = some s
           ∨ env.get_agent_fault fraud_detection_id = some s
           ∨ env.get_agent_fault claim_evaluator_id = some s)) := by
  unfold after_parse
  repeat' split
  · intro e he
    simp +decide at he
    rcases he with he | he | he
    · exact Or.inl he
    · exact Or.inr (Or.inl he)
    · exact Or.inr (Or.inr (Or.inr (Or.inr (Or.inr
        ⟨_, he, Or.inl (py_get_bind_error p "policy_assessor" "policy_number" _ (by assumption))⟩))))
  · intro e he
    simp +decide at he
    rcases he with he | he | he
    · exact Or.inl he
    · exact Or.inr (Or.inl he)
    · exact Or.inr (Or.inr (Or.inr (Or.inr (Or.inr
        ⟨_, he, Or.inl (py_get_bind_error p "policy_assessor" "claim_type" _ (by assumption))⟩))))
  · intro e he
    simp +decide at he
    rcases he with he | he | he
    · exact Or.inl he
    · exact Or.inr (Or.inl he)
    · exact Or.inr (Or.inr (Or.inr (Or.inr (Or.inr
        ⟨_, he, Or.inl (py_get_bind_error p "policy_assessor" "damage_claim" _ (by assumption))⟩))))
  · intro e he
    simp +decide at he
    rcases he with he | he | he
    · exact Or.inl he
    · exact Or.inr (Or.inl he)
    · exact Or.inr (Or.inr (Or.inr (Or.inr (Or.inr
        ⟨_, he, Or.inr (Or.inl (by assumption))⟩))))
  · intro e he
    simp +decide at he
    rcases he with he | he | he | he
    · exact Or.inl he
    · exact Or.inr (Or.inl he)
    · refine Or.inr (Or.inr (Or.inl ⟨_, ?_, he⟩))
      simp
    · exact Or.inr (Or.inr (Or.inr (Or.inr (Or.inr
        ⟨_, he, Or.inl (py_get_bind_error p "fraud_detector" "claim_description" _ (by assumption))⟩))))
  · intro e he
    simp +decide at he
    rcases he with he | he | he | he
    · exact Or.inl he
    · exact Or.inr (Or.inl he)
    · refine Or.inr (Or.inr (Or.inl ⟨_, ?_, he⟩))
      simp
    · exact Or.inr (Or.inr (Or.inr (Or.inr (Or.inr
        ⟨_, he, Or.inr (Or.inr (Or.inl (by assumption)))⟩))))
  · intro e he
    simp +decide at he
    rcases he with he | he | he | he | he
    · exact Or.inl he
    · exact Or.inr (Or.inl he)
    · refine Or.inr (Or.inr (Or.inl ⟨_, ?_, he⟩))
      simp
    · refine Or.inr (Or.inr (Or.inr (Or.inl ⟨_, ?_, he⟩)))
      simp
    · exact Or.inr (Or.inr (Or.inr (Or.inr (Or.inr
        ⟨_, he, Or.inr (Or.inr (Or.inr (by assumption)))⟩))))
  · intro e he
    simp +decide at he
    rcases he with he | he | he | he | he
    · exact Or.inl he
    · exact Or.inr (Or.inl he)
    · refine Or.inr (Or.inr (Or.inl ⟨_, ?_, he⟩))
      simp
    · refine Or.inr (Or.inr (Or.inr (Or.inl ⟨_, ?_, he⟩)))
      simp
    · refine Or.inr (Or.inr (Or.inr (Or.inr (Or.inl ⟨_, ?_, he⟩))))
      simp

/-- In every run the result labels form a prefix of the five stage
labels, optionally terminated by a single final "error" entry. -/
theorem process_stage_keys_shape (env : Env) (q : String) :
    ∃ k, k ≤ 5 ∧
      ((process_claim_run_agents env q).results.map Prod.fst = stage_keys.take k ∨
       (process_claim_run_agents env q).results.map Prod.fst = stage_keys.take k ++ ["error"]) := by
  unfold process_claim_run_agents
  dsimp only
  repeat' split
  · exact ⟨0, by omega, Or.inr (by simp [stage_keys])⟩
  · exact ⟨0, by omega, Or.inr (by simp [stage_keys])⟩
  · exact ⟨0, by omega, Or.inr (by simp [stage_keys])⟩
  · rename_i parsed heq
    rcases after_parse_keys env [("ClaimHandlerAgent Output",
        RVal.str (invoke_agent (env.respond claim_handler_id (q ++ JSON_FORMAT))))] parsed
      with hk | hk | hk | hk <;> rw [hk]
    · exact ⟨2, by omega, Or.inr (by simp [stage_keys])⟩
    · exact ⟨3, by omega, Or.inr (by simp [stage_keys])⟩
    · exact ⟨4, by omega, Or.inr (by simp [stage_keys])⟩
    · exact ⟨5, by omega, Or.inl (by simp [stage_keys])⟩
  · rename_i parsed heq
    rcases after_parse_keys env [("ClaimHandlerAgent Output",
        RVal.str (invoke_agent (env.respond claim_handler_id (q ++ JSON_FORMAT))))] parsed
      with hk | hk | hk | hk <;> rw [hk]
    · exact ⟨2, by omega, Or.inr (by simp [stage_keys])⟩
    · exact ⟨3, by omega, Or.inr (by simp [stage_keys])⟩
    · exact ⟨4, by omega, Or.inr (by simp [stage_keys])⟩
    · exact ⟨5, by omega, Or.inl (by simp [stage_keys])⟩
  · exact ⟨1, by omega, Or.inr (by simp [stage_keys])⟩

/-- The recorded ClaimHandler entry always holds the raw ClaimHandler
invocation output. -/
theorem process_handler_entry_raw (env : Env) (q : String) :
    ∀ v, ("ClaimHandlerAgent Output", v) ∈ (process_claim_run_agents env q).results →
      v = RVal.str (invoke_agent (env.respond claim_handler_id (q ++ JSON_FORMAT))) := by
  unfold process_claim_run_agents
  dsimp only
  repeat' split
  · intro v hv; simp +decide at hv
  · intro v hv; simp +decide at hv
  · intro v hv; simp +decide at hv
  · intro v hv
    have hm := after_parse_mem_handler env _ _ v hv
    simp +decide at hm
    simp [hm]
  · intro v hv
    have hm := after_parse_mem_handler env _ _ v hv
    simp +decide at hm
    simp [hm]
  · intro v hv
    simp +decide at hv
    simp [hv]

/-- The recorded PolicyAssessor entry always holds the raw output of the
PolicyAssessor invocation made in the run. -/
theorem process_policy_entry_raw (env : Env) (q : String) :
    ∀ v, ("PolicyAssessorAgent Output", v) ∈ (process_claim_run_agents env q).results →
      ∃ qq, Ev.invoke policy_assessor_id qq ∈ (process_claim_run_agents env q).trace ∧
        v = RVal.str (invoke_agent (env.respond policy_assessor_id qq)) := by
  unfold process_claim_run_agents
  dsimp only
  repeat' split
  · intro v hv; simp +decide at hv
  · intro v hv; simp +decide at hv
  · intro v hv; simp +decide at hv
  · intro v hv
    rcases after_parse_entry_descr env _ _ _ hv with h | h | h | h | h | h
    · simp +decide at h
    · simp +decide at h
    · obtain ⟨qq, htr, heq⟩ := h
      simp +decide at heq
      exact ⟨qq, List.mem_cons_of_mem _ (List.mem_cons_of_mem _ htr), heq⟩
    · obtain ⟨qq, htr, heq⟩ := h; simp +decide at heq
    · obtain ⟨qq, htr, heq⟩ := h; simp +decide at heq
    · obtain ⟨s, heq, hd⟩ := h; simp +decide at heq
  · intro v hv
    rcases after_parse_entry_descr env _ _ _ hv with h | h | h | h | h | h
    · simp +decide at h
    · simp +decide at h
    · obtain ⟨qq, htr, heq⟩ := h
      simp +decide at heq
      exact ⟨qq, List.mem_cons_of_mem _ (List.mem_cons_of_mem _ (List.mem_cons_of_mem _
        (List.mem_cons_of_mem _ htr))), heq⟩
    · obtain ⟨qq, htr, heq⟩ := h; simp +decide at heq
    · obtain ⟨qq, htr, heq⟩ := h; simp +decide at heq
    · obtain ⟨s, heq, hd⟩ := h; simp +decide at heq
  · intro v hv; simp +decide at hv

/-- The recorded FraudDetection entry always holds the raw output of the
FraudDetection invocation made in the run. -/
theorem process_fraud_entry_raw (env : Env) (q : String) :
    ∀ v, ("FraudDetectionAgent Output", v) ∈ (process_claim_run_agents env q).results →
      ∃ qq, Ev.invoke fraud_detection_id qq ∈ (process_claim_run_agents env q).trace ∧
        v = RVal.str (invoke_agent (env.respond fraud_detection_id qq)) := by
  unfold process_claim_run_agents
  dsimp only
  repeat' split
  · intro v hv; simp +decide at hv
  · intro v hv; simp +decide at hv
  · intro v hv; simp +decide at hv
  · intro v hv
    rcases after_parse_entry_descr env _ _ _ hv with h | h | h | h | h | h
    · simp +decide at h
    · simp +decide at h
    · obtain ⟨qq, htr, heq⟩ := h; simp +decide at heq
    · obtain ⟨qq, htr, heq⟩ := h
      simp +decide at heq
      exact ⟨qq, List.mem_cons_of_mem _ (List.mem_cons_of_mem _ htr), heq⟩
    · obtain ⟨qq, htr, heq⟩ := h; simp +decide at heq
    · obtain ⟨s, heq, hd⟩ := h; simp +decide at heq
  · intro v hv
    rcases after_parse_entry_descr env _ _ _ hv with h | h | h | h | h | h
    · simp +decide at h
    · simp +decide at h
    · obtain ⟨qq, htr, heq⟩ := h; simp +decide at heq
    · obtain ⟨qq, htr, heq⟩ := h
      simp +decide at heq
      exact ⟨qq, List.mem_cons_of_mem _ (List.mem_cons_of_mem _ (List.mem_cons_of_mem _
        (List.mem_cons_of_mem _ htr))), heq⟩
    · obtain ⟨qq, htr, heq⟩ := h; simp +decide at heq
    · obtain ⟨s, heq, hd⟩ := h; simp +decide at heq
  · intro v hv; simp +decide at hv

/-- The recorded ClaimEvaluator entry always holds the raw output of the
ClaimEvaluator invocation made in the run. -/
theorem process_evaluator_entry_raw (env : Env) (q : String) :
    ∀ v, ("ClaimEvaluatorAgent Output", v) ∈ (process_claim_run_agents env q).results →
      ∃ qq, Ev.invoke claim_evaluator_id qq ∈ (process_claim_run_agents env q).trace ∧
        v = RVal.str (invoke_agent (env.respond claim_evaluator_id qq)) := by
  unfold process_claim_run_agents
  dsimp only
  repeat' split
  · intro v hv; simp +decide at hv
  · intro v hv; simp +decide at hv
  · intro v hv; simp +decide at hv
  · intro v hv
    rcases after_parse_entry_descr env _ _ _ hv with h | h | h | h | h | h
    · simp +decide at h
    · simp +decide at h
    · obtain ⟨qq, htr, heq⟩ := h; simp +decide at heq
    · obtain ⟨qq, htr, heq⟩ := h; simp +decide at heq
    · obtain ⟨qq, htr, heq⟩ := h
      simp +decide at heq
      exact ⟨qq, List.mem_cons_of_mem _ (List.mem_cons_of_mem _ htr), heq⟩
    · obtain ⟨s, heq, hd⟩ := h; simp +decide at heq
  · intro v hv
    rcases after_parse_entry_descr env _ _ _ hv with h | h | h | h | h | h
    · simp +decide at h
    · simp +decide at h
    · obtain ⟨qq, htr, heq⟩ := h; simp +decide at heq
    · obtain ⟨qq, htr, heq⟩ := h; simp +decide at heq
    · obtain ⟨qq, htr, heq⟩ := h
      simp +decide at heq
      exact ⟨qq, List.mem_cons_of_mem _ (List.mem_cons_of_mem _ (List.mem_cons_of_mem _
        (List.mem_cons_of_mem _ htr))), heq⟩
    · obtain ⟨s, heq, hd⟩ := h; simp +decide at heq
  · intro v hv; simp +decide at hv

/-- The "error" entry, when present, carries the description of the fault
that aborted the run: a raised credential, client or `get_agent` fault
text, the AttributeError text of a failed field extraction, or the fatal
parse message. -/
theorem process_error_is_fault_descr (env : Env) (q : String) :
    ∀ v, ("error", v) ∈ (process_claim_run_agents env q).results →
      ∃ s, v = RVal.str s ∧
        (env.creds_fault = some s ∨ env.client_fault = some s ∨
         env.get_agent_fault claim_handler_id = some s ∨
         env.get_agent_fault policy_assessor_id = some s ∨
         env.get_agent_fault fraud_detection_id = some s ∨
         env.get_agent_fault claim_evaluator_id = some s ∨
         (∃ j, s = attribute_error_text j) ∨
         s = "Clarification attempt failed, stop process.") := by
  unfold process_claim_run_agents
  dsimp only
  repeat' split
  · intro v hv
    simp +decide at hv
    exact ⟨_, hv, Or.inl (by assumption)⟩
  · intro v hv
    simp +decide at hv
    exact ⟨_, hv, Or.inr (Or.inl (by assumption))⟩
  · intro v hv
    simp +decide at hv
    exact ⟨_, hv, Or.inr (Or.inr (Or.inl (by assumption)))⟩
  · intro v hv
    rcases after_parse_entry_descr env _ _ _ hv with h | h | h | h | h | h
    · simp +decide at h
    · simp +decide at h
    · obtain ⟨qq, htr, heq⟩ := h; simp +decide at heq
    · obtain ⟨qq, htr, heq⟩ := h; simp +decide at heq
    · obtain ⟨qq, htr, heq⟩ := h; simp +decide at heq
    · obtain ⟨s, heq, hd⟩ := h
      simp +decide at heq
      refine ⟨s, heq, ?_⟩
      rcases hd with hd | hd | hd | hd
      · exact Or.inr (Or.inr (Or.inr (Or.inr (Or.inr (Or.inr (Or.inl hd))))))
      · exact Or.inr (Or.inr (Or.inr (Or.inl hd)))
      · exact Or.inr (Or.inr (Or.inr (Or.inr (Or.inl hd))))
      · exact Or.inr (Or.inr (Or.inr (Or.inr (Or.inr (Or.inl hd)))))
  · intro v hv
    rcases after_parse_entry_descr env _ _ _ hv with h | h | h | h | h | h
    · simp +decide at h
    · simp +decide at h
    · obtain ⟨qq, htr, heq⟩ := h; simp +decide at heq
    · obtain ⟨qq, htr, heq⟩ := h; simp +decide at heq
    · obtain ⟨qq, htr, heq⟩ := h; simp +decide at heq
    · obtain ⟨s, heq, hd⟩ := h
      simp +decide at heq
      refine ⟨s, heq, ?_⟩
      rcases hd with hd | hd | hd | hd
      · exact Or.inr (Or.inr (Or.inr (Or.inr (Or.inr (Or.inr (Or.inl hd))))))
      · exact Or.inr (Or.inr (Or.inr (Or.inl hd)))
      · exact Or.inr (Or.inr (Or.inr (Or.inr (Or.inl hd))))
      · exact Or.inr (Or.inr (Or.inr (Or.inr (Or.inr (Or.inl hd)))))
  · intro v hv
    simp +decide at hv
    exact ⟨_, hv, Or.inr (Or.inr (Or.inr (Or.inr (Or.inr (Or.inr (Or.inr rfl))))))⟩

/-- A raised credential acquisition fault aborts the run before any stage
with exactly its description under "error". -/
theorem process_creds_fault_result (env : Env) (q : String) (e : String)
    (h : env.creds_fault = some e) :
    (process_claim_run_agents env q).results = [("error", RVal.str e)] := by
  simp [process_claim_run_agents, h]

/-- A raised client construction fault aborts the run before any stage
with exactly its description under "error". -/
theorem process_client_fault_result (env : Env) (q : String) (e : String)
    (h1 : env.creds_fault = none) (h2 : env.client_fault = some e) :
    (process_claim_run_agents env q).results = [("error", RVal.str e)] := by
  simp [process_claim_run_agents, h1, h2]

/-- A raised ClaimHandler `get_agent` fault aborts the run before any
stage with exactly its description under "error". -/
theorem process_get_handler_fault_result (env : Env) (q : String) (e : String)
    (h1 : env.creds_fault = none) (h2 : env.client_fault = none)
    (h3 : env.get_agent_fault claim_handler_id = some e) :
    (process_claim_run_agents env q).results = [("error", RVal.str e)] := by
  simp [process_claim_run_agents, h1, h2, h3]

/-- C5: in every run the result labels form a prefix of the five stage
labels, optionally terminated by a single final "error" entry (entries
recorded by completed stages remain in the returned object and a fault
only appends the error entry); every stage entry holds that stage's raw
invocation output, recorded upon return — the ClaimHandler entry equals
the raw ClaimHandler response, and each PolicyAssessor / FraudDetection /
ClaimEvaluator entry equals the raw response of the corresponding traced
invocation; the "error" entry's value is the description of the fault
that aborted the run (a raised credential / client / `get_agent` fault
text — recorded exactly on the three pre-parse fault paths — the
AttributeError text of a failed field extraction, or the fatal parse
message). -/
theorem c5_prefix_shape_and_preservation (env : Env) (q : String) :
    (∃ k, k ≤ 5 ∧
      ((process_claim_run_agents env q).results.map Prod.fst = stage_keys.take k ∨
       (process_claim_run_agents env q).results.map Prod.fst = stage_keys.take k ++ ["error"]))
    ∧ (∀ v, ("ClaimHandlerAgent Output", v) ∈ (process_claim_run_agents env q).results →
        v = RVal.str (invoke_agent (env.respond claim_handler_id (q ++ JSON_FORMAT))))
    ∧ (∀ v, ("PolicyAssessorAgent Output", v) ∈ (process_claim_run_agents env q).results →
        ∃ qq, Ev.invoke policy_assessor_id qq ∈ (process_claim_run_agents env q).trace ∧
          v = RVal.str (invoke_agent (env.respond policy_assessor_id qq)))
    ∧ (∀ v, ("FraudDetectionAgent Output", v) ∈ (process_claim_run_agents env q).results →
        ∃ qq, Ev.invoke fraud_detection_id qq ∈ (process_claim_run_agents env q).trace ∧
          v = RVal.str (invoke_agent (env.respond fraud_detection_id qq)))
    ∧ (∀ v, ("ClaimEvaluatorAgent Output", v) ∈ (process_claim_run_agents env q).results →
        ∃ qq, Ev.invoke claim_evaluator_id qq ∈ (process_claim_run_agents env q).trace ∧
          v = RVal.str (invoke_agent (env.respond claim_evaluator_id qq)))
    ∧ (∀ v, ("error", v) ∈ (process_claim_run_agents env q).results →
        ∃ s, v = RVal.str s ∧
          (env.creds_fault = some s ∨ env.client_fault = some s ∨
           env.get_agent_fault claim_handler_id = some s ∨
           env.get_agent_fault policy_assessor_id = some s ∨
           env.get_agent_fault fraud_detection_id = some s ∨
           env.get_agent_fault claim_evaluator_id = some s ∨
           (∃ j, s = attribute_error_text j) ∨
           s = "Clarification attempt failed, stop process."))
    ∧ (∀ e, env.creds_fault = some e →
        (process_claim_run_agents env q).results = [("error", RVal.str e)])
    ∧ (∀ e, env.creds_fault = none → env.client_fault = some e →
        (process_claim_run_agents env q).results = [("error", RVal.str e)])
    ∧ (∀ e, env.creds_fault = none → env.client_fault = none →
        env.get_agent_fault claim_handler_id = some e →
        (process_claim_run_agents env q).results = [("error", RVal.str e)]) :=
  ⟨process_stage_keys_shape env q, process_handler_entry_raw env q,
   process_policy_entry_raw env q, process_fraud_entry_raw env q,
   process_evaluator_entry_raw env q, process_error_is_fault_descr env q,
   fun e h => process_creds_fault_result env q e h,
   fun e h1 h2 => process_client_fault_result env q e h1 h2,
   fun e h1 h2 h3 => process_get_handler_fault_result env q e h1 h2 h3⟩

theorem c5_witness :
    (∃ k, k ≤ 5 ∧
      ((process_claim_run_agents env_c5w "any text").results.map Prod.fst = stage_keys.take k ∨
       (process_claim_run_agents env_c5w "any text").results.map Prod.fst
         = stage_keys.take k ++ ["error"]))
    ∧ (∀ v, ("ClaimHandlerAgent Output", v) ∈ (process_claim_run_agents env_c5w "any text").results →
        v = RVal.str (invoke_agent (env_c5w.respond claim_handler_id ("any text" ++ JSON_FORMAT))))
    ∧ (∀ v, ("PolicyAssessorAgent Output", v) ∈ (process_claim_run_agents env_c5w "any text").results →
        ∃ qq, Ev.invoke policy_assessor_id qq ∈ (process_claim_run_agents env_c5w "any text").trace ∧
          v = RVal.str (invoke_agent (env_c5w.respond policy_assessor_id qq)))
    ∧ (∀ v, ("FraudDetectionAgent Output", v) ∈ (process_claim_run_agents env_c5w "any text").results →
        ∃ qq, Ev.invoke fraud_detection_id qq ∈ (process_claim_run_agents env_c5w "any text").trace ∧
          v = RVal.str (invoke_agent (env_c5w.respond fraud_detection_id qq)))
    ∧ (∀ v, ("ClaimEvaluatorAgent Output", v) ∈ (process_claim_run_agents env_c5w "any text").results →
        ∃ qq, Ev.invoke claim_evaluator_id qq ∈ (process_claim_run_agents env_c5w "any text").trace ∧
          v = RVal.str (invoke_agent (env_c5w.respond claim_evaluator_id qq)))
    ∧ (∀ v, ("error", v) ∈ (process_claim_run_agents env_c5w "any text").results →
        ∃ s, v = RVal.str s ∧
          (env_c5w.creds_fault = some s ∨ env_c5w.client_fault = some s ∨
           env_c5w.get_agent_fault claim_handler_id = some s ∨
           env_c5w.get_agent_fault policy_assessor_id = some s ∨
           env_c5w.get_agent_fault fraud_detection_id = some s ∨
           env_c5w.get_agent_fault claim_evaluator_id = some s ∨
           (∃ j, s = attribute_error_text j) ∨
           s = "Clarification attempt failed, stop process."))
    ∧ (∀ e, env_c5w.creds_fault = some e →
        (process_claim_run_agents env_c5w "any text").results = [("error", RVal.str e)])
    ∧ (∀ e, env_c5w.creds_fault = none → env_c5w.client_fault = some e →
        (process_claim_run_agents env_c5w "any text").results = [("error", RVal.str e)])
    ∧ (∀ e, env_c5w.creds_fault = none → env_c5w.client_fault = none →
        env_c5w.get_agent_fault claim_handler_id = some e →
        (process_claim_run_agents env_c5w "any text").results = [("error", RVal.str e)]) :=
  c5_prefix_shape_and_preservation env_c5w "any text"
